import Mathlib

/-!
Shallow embedding of `scripts/smilebus_data_populate.py` and verification of
the specification's claims about it.

The embedding models:
* the SQLite schema created by `create_database` (three tables, three
  indexes, all guarded by IF NOT EXISTS);
* the row-level state of the store (`DB`) and the write statements issued by
  `process_city_data`, including SQLite's actual conflict behaviour:
  `INSERT OR REPLACE` on the `cities`/`stops` primary key, and
  `INSERT OR IGNORE` on `routes`, whose only uniqueness constraint is the
  AUTOINCREMENT primary key `id` (the logical route tuple carries no UNIQUE
  constraint in the schema);
* the sequential processing loop of `populate_database` (fetch results are
  consumed one at a time in the coordinator thread; a processing error is
  caught, logged, and the loop continues; there is no per-outcome rollback —
  the single pending transaction is committed once at the end);
* `fetch_city_data`'s outcome classification;
* the join/sort/render pipeline of `export_route_summary`.

Python dictionary values that the schema constrains with NOT NULL
(`cities.name`, `stops.title`) are modelled as `Option String` in the raw
records: a `none` there makes the corresponding INSERT raise, exactly where
the Python `sqlite3` call would raise `IntegrityError`.  Foreign keys are not
checked on insert because the connection used by `populate_database` never
issues `PRAGMA foreign_keys = ON` (only the separate `create_database`
connection does, and that setting is per-connection in SQLite).
-/

namespace Smilebus

/-! ### Rows of the store -/

/-- A row of the `cities` table. -/
structure CityRow where
  id : Nat
  name : String
  slug : Option String
  is_waypoint : Bool
  is_top : Bool
deriving DecidableEq

/-- A row of the `stops` table.  `city_id` is always written by the script
(it passes the enclosing record's `id_city`), hence modelled non-null. -/
structure StopRow where
  id : Nat
  city_id : Nat
  title : String
  gps : Option String
  photo_url : Option String
  order_num : Int
  is_default : Bool
deriving DecidableEq

/-- A row of the `routes` table.  `id` is the AUTOINCREMENT primary key; the
four reference columns are nullable in the schema. -/
structure RouteRow where
  id : Nat
  from_city_id : Option Nat
  to_city_id : Option Nat
  from_stop_id : Option Nat
  to_stop_id : Option Nat
deriving DecidableEq

/-- The data state of the store: the three tables plus the AUTOINCREMENT
counter for `routes.id` (AUTOINCREMENT never reuses an id). -/
structure DB where
  cities : List CityRow
  stops : List StopRow
  routes : List RouteRow
  next_route_id : Nat
deriving DecidableEq

/-- A freshly created store: empty tables, route ids start at 1. -/
def emptyDB : DB := ⟨[], [], [], 1⟩

/-! ### Raw upstream records (untrusted payload) -/

/-- One element of a destination city's `stops` array, as decoded from the
upstream JSON.  `title` is `Option` because the schema declares
`stops.title TEXT NOT NULL` while the payload value may be null. -/
structure StopRec where
  id : Nat
  title : Option String
  gps : Option String
  photo_url : Option String
  order : Int
  is_default : Bool
deriving DecidableEq

/-- One destination-city record of the payload.  `city_name` is `Option`
because `cities.name` is NOT NULL while the payload value may be null. -/
structure CityRec where
  id_city : Nat
  city_name : Option String
  city_slug : Option String
  is_waypoint : Bool
  is_top : Bool
  stops : List StopRec
deriving DecidableEq

/-- A "data" outcome as returned by `fetch_city_data`:
`{'city_id': city_id, 'data': data['data']}`. -/
structure CityData where
  city_id : Nat
  data : List CityRec
deriving DecidableEq

/-! ### Write statements issued by `process_city_data`

`process_city_data` issues, per destination-city record, first the city
upsert, then one stop upsert per stop, then one route insert per stop.
Which statements are issued (and where an `IntegrityError` aborts the
outcome) depends only on the payload, never on the store state, so the
statement trace of an outcome can be computed from the outcome alone and the
store state obtained by replaying it in order. -/

/-- A single SQL write statement issued by the script. -/
inductive WriteEvent where
  | city (row : CityRow)
  | stop (row : StopRow)
  | route (from_city_id to_city_id from_stop_id to_stop_id : Option Nat)
deriving DecidableEq

/-- The `stops` row the script binds for one stop record: the `city_id`
column is filled with the enclosing record's `id_city`.  `none` when
`stops.title` would violate its NOT NULL constraint. -/
def mkStopRow (cityId : Nat) (s : StopRec) : Option StopRow :=
  s.title.map (fun t => ⟨s.id, cityId, t, s.gps, s.photo_url, s.order, s.is_default⟩)

/-- The `cities` row the script binds for one destination-city record;
`none` when `cities.name` would violate its NOT NULL constraint. -/
def mkCityRow (c : CityRec) : Option CityRow :=
  c.city_name.map (fun nm => ⟨c.id_city, nm, c.city_slug, c.is_waypoint, c.is_top⟩)

/-- Statements of the stop-upsert loop, halting at the first stop whose
insert raises (NOT NULL on `stops.title`).  The Bool records whether the
loop raised. -/
def stopEvents (cityId : Nat) : List StopRec → List WriteEvent × Bool
  | [] => ([], false)
  | s :: rest =>
    match mkStopRow cityId s with
    | none => ([], true)
    | some row =>
      (WriteEvent.stop row :: (stopEvents cityId rest).1, (stopEvents cityId rest).2)

/-- Statements of the route-insert loop: one per stop record, binding
`(city_data['city_id'], city['id_city'], None, stop['id'])`.  All four route
columns are nullable, so this loop never raises. -/
def routeEvents (fromId cityId : Nat) (stops : List StopRec) : List WriteEvent :=
  stops.map (fun s => WriteEvent.route (some fromId) (some cityId) none (some s.id))

/-- Statements issued for one destination-city record: city upsert, then
stop upserts, then route inserts, truncated at the first raising insert. -/
def cityRecEvents (fromId : Nat) (c : CityRec) : List WriteEvent × Bool :=
  match mkCityRow c with
  | none => ([], true)
  | some row =>
    if (stopEvents c.id_city c.stops).2 then
      (WriteEvent.city row :: (stopEvents c.id_city c.stops).1, true)
    else
      (WriteEvent.city row ::
        ((stopEvents c.id_city c.stops).1 ++ routeEvents fromId c.id_city c.stops), false)

/-- Statements issued for the whole `city_data['data']` list, truncated at
the first record whose processing raises (the exception propagates out of
`process_city_data`, so later records are not processed). -/
def outcomeEventsLoop (fromId : Nat) : List CityRec → List WriteEvent × Bool
  | [] => ([], false)
  | c :: rest =>
    if (cityRecEvents fromId c).2 then ((cityRecEvents fromId c).1, true)
    else ((cityRecEvents fromId c).1 ++ (outcomeEventsLoop fromId rest).1,
          (outcomeEventsLoop fromId rest).2)

/-- All write statements one outcome issues, plus whether it raised. -/
def outcomeEvents (cd : CityData) : List WriteEvent × Bool :=
  outcomeEventsLoop cd.city_id cd.data

/-! ### Applying statements to the store -/

/-- Effect of one statement on the store.

* `INSERT OR REPLACE INTO cities/stops`: the REPLACE conflict clause deletes
  any row with the same primary key and inserts the new row.
* `INSERT OR IGNORE INTO routes`: the only uniqueness constraint on `routes`
  is the primary key `id`, which is freshly AUTOINCREMENT-assigned, so the
  IGNORE clause fires only on a (never-occurring) primary-key collision; the
  logical tuple is not checked because the schema has no UNIQUE constraint
  on it.  Foreign keys are not checked (the populate connection never turns
  them on). -/
def applyEvent (db : DB) : WriteEvent → DB
  | .city row => { db with cities := db.cities.filter (fun c => c.id ≠ row.id) ++ [row] }
  | .stop row => { db with stops := db.stops.filter (fun s => s.id ≠ row.id) ++ [row] }
  | .route f t fs ts =>
    if db.routes.any (fun r => r.id = db.next_route_id) then db
    else { db with routes := db.routes ++ [⟨db.next_route_id, f, t, fs, ts⟩],
                   next_route_id := db.next_route_id + 1 }

/-- `process_city_data(conn, city_data)`: issues the outcome's statements in
order against the shared connection.  Returns the store state at the moment
control leaves the function, together with the error the call raised (if
any).  There is no rollback: statements executed before a raising one stay
in the connection's pending transaction. -/
def process_city_data (db : DB) (cd : CityData) : DB × Option String :=
  ((outcomeEvents cd).1.foldl applyEvent db,
   if (outcomeEvents cd).2 then some "IntegrityError: NOT NULL constraint failed" else none)

/-! ### The `populate_database` processing loop

The coordinator consumes completed futures one at a time in the main thread
(`for future in as_completed(...)`).  `items` is the arrival-ordered list of
`(city_id, future.result())` pairs; a `None` result is skipped without
logging, a successful `process_city_data` logs an info line, a raising one
is caught by the `except` clause and logs an error line — and the loop
continues.  The log is modelled as `(city_id, succeeded?)` pairs. -/

/-- One iteration of the `as_completed` consumption loop. -/
def populate_step (st : DB × List (Nat × Bool)) (item : Nat × Option CityData) :
    DB × List (Nat × Bool) :=
  match item.2 with
  | none => st
  | some cd =>
    match (process_city_data st.1 cd).2 with
    | none => ((process_city_data st.1 cd).1, st.2 ++ [(item.1, true)])
    | some _ => ((process_city_data st.1 cd).1, st.2 ++ [(item.1, false)])

/-- `populate_database`: process all arrived results in order, then commit
(the commit makes every pending write durable, including partial writes of
outcomes that raised; it adds nothing to the row-level model). -/
def populate_database (db : DB) (items : List (Nat × Option CityData)) :
    DB × List (Nat × Bool) :=
  items.foldl populate_step (db, [])

/-! ### Concrete payloads (the specification's own scenario) -/

/-- The stop record of the spec's scenario for city 5. -/
def centralStop : StopRec := ⟨100, some "Central", some "56.9,24.1", none, 1, true⟩

/-- The destination-city record of the spec's scenario (`id_city` 9, Riga). -/
def rigaRec : CityRec := ⟨9, some "Riga", some "riga", false, true, [centralStop]⟩

/-- The spec's scenario outcome: origin city 5, payload `[rigaRec]`. -/
def rigaOutcome : CityData := ⟨5, [rigaRec]⟩

/-- An outcome whose payload lists the same destination record twice, so the
same logical route tuple `(5, 9, NULL, 100)` is inserted twice. -/
def rigaTwice : CityData := ⟨5, [rigaRec, rigaRec]⟩

/-- A destination record whose `city_name` is null: inserting it violates
`cities.name NOT NULL` and raises. -/
def noNameRec : CityRec := ⟨10, none, none, false, false, []⟩

/-- An outcome that writes a full record and then raises on the second one:
its write fails mid-way. -/
def badOutcome : CityData := ⟨1, [rigaRec, noNameRec]⟩

/-! ### `fetch_city_data` -/

/-- The decoded JSON body of a well-shaped upstream response:
`{result: ..., data: [...]}`. -/
structure ApiResponse where
  result : String
  data : List CityRec
deriving DecidableEq

/-- What the transport layer hands back for one request: either a
`requests.RequestException` (timeout, connection failure, or the
`raise_for_status` of a non-2xx reply) or a decoded body. -/
inductive HttpResult where
  | failure
  | success (body : ApiResponse)
deriving DecidableEq

/-- Observable result of one fetch task.  `data` is the returned dictionary;
`skipLogged` is `return None` after `logging.error`; `skipSilent` is
`return None` with no log call at all. -/
inductive FetchOut where
  | data (cd : CityData)
  | skipLogged
  | skipSilent
deriving DecidableEq

/-- `fetch_city_data(city_id)` given the transport's behaviour for its one
request: a `RequestException` is caught and logged as an error before
`return None`; a decoded body yields the data dictionary exactly when
`data['result'] == 'success' and data['data']` (non-empty), and otherwise
falls through to `return None` without logging. -/
def fetch_city_data (cityId : Nat) (resp : HttpResult) : FetchOut :=
  match resp with
  | .failure => .skipLogged
  | .success body =>
    if body.result = "success" ∧ body.data ≠ [] then .data ⟨cityId, body.data⟩
    else .skipSilent

/-! ### `export_route_summary`

The SQL joins `routes` to `cities` twice and `stops` twice — all INNER
except the origin-stop join, which is LEFT — orders by
`c1.name, c2.name, s1.title, s2.title`, and Python renders
`row[3] or 'Any'` for the origin stop (both SQL NULL and the empty string
are falsy).  SQLite sorts NULL before every string in ascending order. -/

/-- `r.from_city_id = c1.id` join lookup: a NULL key matches nothing, a
non-NULL key matches the (unique, by primary key) row with that id. -/
def lookupCity (db : DB) : Option Nat → Option CityRow
  | none => none
  | some i => db.cities.find? (fun c => c.id = i)

/-- `r.to_stop_id = s.id` (and `from_stop_id`) join lookup. -/
def lookupStop (db : DB) : Option Nat → Option StopRow
  | none => none
  | some i => db.stops.find? (fun s => s.id = i)

/-- One row of the join result, before Python's rendering: the origin-stop
title is still `Option` (NULL when the LEFT JOIN found no row). -/
structure JoinedRow where
  id : Nat
  from_city : String
  to_city : String
  from_stop_title : Option String
  to_stop : String
deriving DecidableEq

/-- The join for one `routes` row: INNER on origin city, destination city
and destination stop (no match drops the row), LEFT on origin stop. -/
def routeJoin (db : DB) (r : RouteRow) : Option JoinedRow :=
  match lookupCity db r.from_city_id, lookupCity db r.to_city_id,
        lookupStop db r.to_stop_id with
  | some c1, some c2, some s2 =>
    some ⟨r.id, c1.name, c2.name, (lookupStop db r.from_stop_id).map (fun s => s.title),
          s2.title⟩
  | _, _, _ => none

/-- SQLite's ordering of a nullable TEXT column in ascending ORDER BY:
NULL sorts before every string. -/
def titleKey : Option String → WithBot String
  | none => ⊥
  | some t => (t : WithBot String)

/-- The ORDER BY key: lexicographic on
`(c1.name, c2.name, s1.title, s2.title)` with NULL-first on `s1.title`. -/
def keyOf (j : JoinedRow) : Lex (String × Lex (String × Lex (WithBot String × String))) :=
  toLex (j.from_city, toLex (j.to_city, toLex (titleKey j.from_stop_title, j.to_stop)))

/-- The ordering relation the export is sorted by. -/
def keyRel (a b : JoinedRow) : Prop := keyOf a ≤ keyOf b

instance : DecidableRel keyRel := fun a b =>
  inferInstanceAs (Decidable (keyOf a ≤ keyOf b))

instance : IsTotal JoinedRow keyRel := ⟨fun a b => le_total (keyOf a) (keyOf b)⟩

instance : IsTrans JoinedRow keyRel := ⟨fun _ _ _ hab hbc => le_trans hab hbc⟩

/-- The flattened record written to the JSON file. -/
structure ExportRow where
  id : Nat
  from_city : String
  to_city : String
  from_stop : String
  to_stop : String
deriving DecidableEq

/-- Python's `'from_stop': row[3] or 'Any'` — NULL and `''` are both falsy
and render as `"Any"`. -/
def renderRow (j : JoinedRow) : ExportRow :=
  ⟨j.id, j.from_city, j.to_city,
   match j.from_stop_title with
   | none => "Any"
   | some t => if t = "" then "Any" else t,
   j.to_stop⟩

/-- `export_route_summary`: join every route row, sort by the ORDER BY key,
render.  (The serialization to disk is outside the row-level model.) -/
def export_route_summary (db : DB) : List ExportRow :=
  ((db.routes.filterMap (routeJoin db)).insertionSort keyRel).map renderRow

/-! ### `create_database` (schema initializer)

Modelled at the DDL level: the store's catalog is a list of named table
definitions and named index definitions; `CREATE TABLE IF NOT EXISTS` and
`CREATE INDEX IF NOT EXISTS` add an entry only when no entry with that name
exists, and leave an existing entry completely untouched. -/

/-- The store's schema catalog. -/
structure SchemaState where
  tables : List (String × String)
  indexes : List (String × String)
deriving DecidableEq

/-- `CREATE TABLE IF NOT EXISTS name (defn)`. -/
def createTableIfNotExists (s : SchemaState) (name defn : String) : SchemaState :=
  if s.tables.any (fun t => t.1 = name) then s
  else { s with tables := s.tables ++ [(name, defn)] }

/-- `CREATE INDEX IF NOT EXISTS name ON (defn)`. -/
def createIndexIfNotExists (s : SchemaState) (name defn : String) : SchemaState :=
  if s.indexes.any (fun t => t.1 = name) then s
  else { s with indexes := s.indexes ++ [(name, defn)] }

/-- Column list of the `cities` table, as in the script. -/
def citiesDDL : String :=
  "id INTEGER PRIMARY KEY, name TEXT NOT NULL, slug TEXT, is_waypoint BOOLEAN, is_top BOOLEAN"

/-- Column list of the `stops` table, as in the script. -/
def stopsDDL : String :=
  "id INTEGER PRIMARY KEY, city_id INTEGER, title TEXT NOT NULL, gps TEXT, photo_url TEXT, order_num INTEGER, is_default BOOLEAN, FOREIGN KEY (city_id) REFERENCES cities (id)"

/-- Column list of the `routes` table, as in the script: note the only
uniqueness constraint is the AUTOINCREMENT primary key. -/
def routesDDL : String :=
  "id INTEGER PRIMARY KEY AUTOINCREMENT, from_city_id INTEGER, to_city_id INTEGER, from_stop_id INTEGER, to_stop_id INTEGER, FOREIGN KEY (from_city_id) REFERENCES cities (id), FOREIGN KEY (to_city_id) REFERENCES cities (id), FOREIGN KEY (from_stop_id) REFERENCES stops (id), FOREIGN KEY (to_stop_id) REFERENCES stops (id)"

/-- The executescript of `create_database`: three guarded CREATE TABLEs then
three guarded CREATE INDEXes, in script order. -/
def create_database (s : SchemaState) : SchemaState :=
  createIndexIfNotExists
    (createIndexIfNotExists
      (createIndexIfNotExists
        (createTableIfNotExists
          (createTableIfNotExists
            (createTableIfNotExists s "cities" citiesDDL)
            "stops" stopsDDL)
          "routes" routesDDL)
        "idx_cities_slug" "cities (slug)")
      "idx_stops_city_id" "stops (city_id)")
    "idx_routes_from_to" "routes (from_city_id, to_city_id)"

/-! ### The write trace of a whole run

`populate_database` issues all writes from the coordinator thread, one
completed outcome at a time; the worker threads only perform network I/O.
The run's write trace is therefore the concatenation of the per-outcome
statement lists, each statement tagged with the position (in arrival order)
of the outcome that issued it. -/

/-- Tagged write trace of the items from arrival position `n` on. -/
def runTraceFrom (n : Nat) : List (Nat × Option CityData) → List (Nat × WriteEvent)
  | [] => []
  | item :: rest =>
    (match item.2 with
     | none => []
     | some cd => (outcomeEvents cd).1.map (fun e => (n, e))) ++ runTraceFrom (n + 1) rest

/-- Tagged write trace of a whole run. -/
def runTrace (items : List (Nat × Option CityData)) : List (Nat × WriteEvent) :=
  runTraceFrom 0 items

/-- A sample populated store used to instantiate the export theorems. -/
def sampleDB : DB :=
  ⟨[⟨5, "Minsk", none, false, false⟩, ⟨9, "Riga", some "riga", false, true⟩],
   [⟨100, 9, "Central", some "56.9,24.1", none, 1, true⟩],
   [⟨1, some 5, some 9, none, some 100⟩, ⟨2, some 7, some 9, none, some 100⟩],
   3⟩

/-- The `stops` row the spec scenario writes. -/
def stopRow100 : StopRow := ⟨100, 9, "Central", some "56.9,24.1", none, 1, true⟩

/-! ### Helper lemmas: schema initializer -/

lemma createTable_present (s : SchemaState) (name defn : String) :
    ((createTableIfNotExists s name defn).tables.any (fun t => t.1 = name)) = true := by
  unfold createTableIfNotExists
  split
  · assumption
  · simp

lemma createTable_preserves (s : SchemaState) (name defn : String)
    (p : String × String → Bool) (h : s.tables.any p = true) :
    ((createTableIfNotExists s name defn).tables.any p) = true := by
  unfold createTableIfNotExists
  split
  · exact h
  · simp [h]

lemma createIndex_present (s : SchemaState) (name defn : String) :
    ((createIndexIfNotExists s name defn).indexes.any (fun t => t.1 = name)) = true := by
  unfold createIndexIfNotExists
  split
  · assumption
  · simp

lemma createIndex_preserves (s : SchemaState) (name defn : String)
    (p : String × String → Bool) (h : s.indexes.any p = true) :
    ((createIndexIfNotExists s name defn).indexes.any p) = true := by
  unfold createIndexIfNotExists
  split
  · exact h
  · simp [h]

lemma createIndex_tables (s : SchemaState) (name defn : String) :
    (createIndexIfNotExists s name defn).tables = s.tables := by
  unfold createIndexIfNotExists
  split <;> rfl

lemma createTable_indexes (s : SchemaState) (name defn : String) :
    (createTableIfNotExists s name defn).indexes = s.indexes := by
  unfold createTableIfNotExists
  split <;> rfl

lemma createTable_noop {s : SchemaState} {name defn : String}
    (h : s.tables.any (fun t => t.1 = name) = true) :
    createTableIfNotExists s name defn = s := by
  unfold createTableIfNotExists
  rw [if_pos h]

lemma createIndex_noop {s : SchemaState} {name defn : String}
    (h : s.indexes.any (fun t => t.1 = name) = true) :
    createIndexIfNotExists s name defn = s := by
  unfold createIndexIfNotExists
  rw [if_pos h]

lemma create_database_tables_present (s : SchemaState) :
    ((create_database s).tables.any (fun t => t.1 = "cities")) = true ∧
    ((create_database s).tables.any (fun t => t.1 = "stops")) = true ∧
    ((create_database s).tables.any (fun t => t.1 = "routes")) = true := by
  unfold create_database
  rw [createIndex_tables, createIndex_tables, createIndex_tables]
  refine ⟨?_, ?_, ?_⟩
  · exact createTable_preserves _ _ _ _
      (createTable_preserves _ _ _ _ (createTable_present _ _ _))
  · exact createTable_preserves _ _ _ _ (createTable_present _ _ _)
  · exact createTable_present _ _ _

lemma create_database_indexes_present (s : SchemaState) :
    ((create_database s).indexes.any (fun t => t.1 = "idx_cities_slug")) = true ∧
    ((create_database s).indexes.any (fun t => t.1 = "idx_stops_city_id")) = true ∧
    ((create_database s).indexes.any (fun t => t.1 = "idx_routes_from_to")) = true := by
  unfold create_database
  refine ⟨?_, ?_, ?_⟩
  · exact createIndex_preserves _ _ _ _
      (createIndex_preserves _ _ _ _ (createIndex_present _ _ _))
  · exact createIndex_preserves _ _ _ _ (createIndex_present _ _ _)
  · exact createIndex_present _ _ _

lemma create_database_noop (s : SchemaState)
    (h1 : s.tables.any (fun t => t.1 = "cities") = true)
    (h2 : s.tables.any (fun t => t.1 = "stops") = true)
    (h3 : s.tables.any (fun t => t.1 = "routes") = true)
    (h4 : s.indexes.any (fun t => t.1 = "idx_cities_slug") = true)
    (h5 : s.indexes.any (fun t => t.1 = "idx_stops_city_id") = true)
    (h6 : s.indexes.any (fun t => t.1 = "idx_routes_from_to") = true) :
    create_database s = s := by
  unfold create_database
  rw [createTable_noop h1, createTable_noop h2, createTable_noop h3,
      createIndex_noop h4, createIndex_noop h5, createIndex_noop h6]

lemma create_database_idem (s : SchemaState) :
    create_database (create_database s) = create_database s := by
  obtain ⟨h1, h2, h3⟩ := create_database_tables_present s
  obtain ⟨h4, h5, h6⟩ := create_database_indexes_present s
  exact create_database_noop _ h1 h2 h3 h4 h5 h6

/-! ### Claim theorems -/

/-- Claim C8: running the schema initializer any number of times in
succession leaves the store in the same state as running it once — the
second and later invocations are side-effect free, for every starting
catalog state. -/
theorem c8_schema_init_idempotent (s : SchemaState) (n : Nat) :
    create_database^[n] (create_database s) = create_database s := by
  induction n with
  | zero => rfl
  | succ k ih => rw [Function.iterate_succ_apply, create_database_idem, ih]

/-- Witness for C8 at a concrete input: two further runs after the first on
an empty catalog change nothing. -/
theorem c8_schema_init_idempotent_witness :
    create_database^[2] (create_database ⟨[], []⟩) = create_database ⟨[], []⟩ :=
  c8_schema_init_idempotent ⟨[], []⟩ 2

/-- Claim C5: a fetch task yields a "data" outcome carrying the identifier
and decoded payload iff the decoded body has `result = "success"` and
non-empty data; a decoded body failing that test yields a silent (unlogged)
skip; a transport failure yields a logged skip instead of propagating. -/
theorem c5_fetch_outcome_cases (cityId : Nat) (resp : HttpResult) :
    (∀ body : ApiResponse, resp = HttpResult.success body →
      ((fetch_city_data cityId resp = FetchOut.data ⟨cityId, body.data⟩) ↔
        (body.result = "success" ∧ body.data ≠ [])) ∧
      ((body.result ≠ "success" ∨ body.data = []) →
        fetch_city_data cityId resp = FetchOut.skipSilent)) ∧
    (resp = HttpResult.failure → fetch_city_data cityId resp = FetchOut.skipLogged) ∧
    (∀ cd : CityData, fetch_city_data cityId resp = FetchOut.data cd →
      ∃ body : ApiResponse, resp = HttpResult.success body ∧ body.result = "success" ∧
        body.data ≠ [] ∧ cd = ⟨cityId, body.data⟩) := by
  cases resp with
  | failure =>
    refine ⟨?_, ?_, ?_⟩
    · intro body hb
      cases hb
    · intro _
      rfl
    · intro cd hcd
      simp [fetch_city_data] at hcd
  | success body =>
    by_cases hcond : body.result = "success" ∧ body.data ≠ []
    · refine ⟨?_, ?_, ?_⟩
      · intro b hb
        cases hb
        constructor
        · constructor
          · intro _
            exact hcond
          · intro _
            simp [fetch_city_data, hcond]
        · rintro (hres | hdat)
          · exact absurd hcond.1 hres
          · exact absurd hdat hcond.2
      · intro hb
        cases hb
      · intro cd hcd
        refine ⟨body, rfl, hcond.1, hcond.2, ?_⟩
        simp only [fetch_city_data, if_pos hcond] at hcd
        cases hcd
        rfl
    · refine ⟨?_, ?_, ?_⟩
      · intro b hb
        cases hb
        constructor
        · constructor
          · intro hdata
            simp [fetch_city_data, hcond] at hdata
          · intro hc
            exact absurd hc hcond
        · intro _
          simp [fetch_city_data, hcond]
      · intro hb
        cases hb
      · intro cd hcd
        simp [fetch_city_data, hcond] at hcd

/-- Witness for C5 at a concrete input: a transport failure for city 3 is a
logged skip. -/
theorem c5_fetch_outcome_cases_witness :
    fetch_city_data 3 HttpResult.failure = FetchOut.skipLogged :=
  (c5_fetch_outcome_cases 3 HttpResult.failure).2.1 rfl

/-- Claim C1 is violated by the code (`code_bug`): the `routes` table has no
UNIQUE constraint on the logical tuple, so `INSERT OR IGNORE` never
suppresses a duplicate.  Evaluating the code on one successfully processed
outcome whose payload yields the tuple `(5, 9, NULL, 100)` twice: the store
ends with two Route rows carrying the same logical key. -/
theorem c1_route_tuple_duplicated :
    ((populate_database emptyDB [(5, some rigaTwice)]).2 = [(5, true)]) ∧
    ((populate_database emptyDB [(5, some rigaTwice)]).1.routes.length = 2) ∧
    (∀ r ∈ (populate_database emptyDB [(5, some rigaTwice)]).1.routes,
      r.from_city_id = some 5 ∧ r.to_city_id = some 9 ∧ r.from_stop_id = none ∧
        r.to_stop_id = some 100) := by
  decide

/-- Claim C2 is violated by the code (`code_bug`): re-running ingestion with
the same upstream response doubles the Route rows (the City and Stop rows do
converge). -/
theorem c2_second_run_grows_routes :
    ((populate_database emptyDB [(5, some rigaOutcome)]).1.routes.length = 1) ∧
    ((populate_database (populate_database emptyDB [(5, some rigaOutcome)]).1
        [(5, some rigaOutcome)]).1.routes.length = 2) ∧
    ((populate_database (populate_database emptyDB [(5, some rigaOutcome)]).1
        [(5, some rigaOutcome)]).1.cities =
      (populate_database emptyDB [(5, some rigaOutcome)]).1.cities) ∧
    ((populate_database (populate_database emptyDB [(5, some rigaOutcome)]).1
        [(5, some rigaOutcome)]).1.stops =
      (populate_database emptyDB [(5, some rigaOutcome)]).1.stops) := by
  decide

/-- Claim C3 is violated by the code (`code_bug`): after the spec's own
scenario run (successful, nothing logged as an error), the store holds a
Route row whose `from_city_id` is 5 while no City row with id 5 exists —
the origin city is never inserted, and the populate connection never enables
foreign-key enforcement. -/
theorem c3_from_city_dangling :
    ((populate_database emptyDB [(5, some rigaOutcome)]).2 = [(5, true)]) ∧
    (∃ r ∈ (populate_database emptyDB [(5, some rigaOutcome)]).1.routes,
      r.from_city_id = some 5) ∧
    (∀ c ∈ (populate_database emptyDB [(5, some rigaOutcome)]).1.cities, c.id ≠ 5) := by
  decide

/-- Counterexample to Claim C4 as stated: `badOutcome`'s write fails mid-way
(the second record violates `cities.name NOT NULL`), the failure is logged —
yet the first record's City, Stop and Route rows of that same outcome remain
persisted, so the outcome's writes are not all-or-nothing. -/
theorem c4_not_atomic_counterexample :
    ((populate_database emptyDB [(1, some badOutcome)]).2 = [(1, false)]) ∧
    ((populate_database emptyDB [(1, some badOutcome)]).1.cities =
      [⟨9, "Riga", some "riga", false, true⟩]) ∧
    ((populate_database emptyDB [(1, some badOutcome)]).1.stops = [stopRow100]) ∧
    ((populate_database emptyDB [(1, some badOutcome)]).1.routes =
      [⟨1, some 1, some 9, none, some 100⟩]) := by
  decide

/-! ### Helper lemmas: export -/

lemma length_filterMap_eq_length_filter {α β : Type} (f : α → Option β) (l : List α) :
    (l.filterMap f).length = (l.filter (fun a => (f a).isSome)).length := by
  induction l with
  | nil => rfl
  | cons a rest ih =>
    cases h : f a with
    | none => simp [List.filterMap_cons, List.filter_cons, h, ih]
    | some b => simp [List.filterMap_cons, List.filter_cons, h, ih]

lemma routeJoin_null_from_stop {db : DB} {r : RouteRow} {j : JoinedRow}
    (hj : routeJoin db r = some j) (hfs : r.from_stop_id = none) :
    j.from_stop_title = none := by
  unfold routeJoin at hj
  rw [hfs] at hj
  rcases h1 : lookupCity db r.from_city_id with _ | c1 <;> rw [h1] at hj
  · cases hj
  rcases h2 : lookupCity db r.to_city_id with _ | c2 <;> rw [h2] at hj
  · cases hj
  rcases h3 : lookupStop db r.to_stop_id with _ | s2 <;> rw [h3] at hj
  · cases hj
  cases hj
  rfl

lemma renderRow_any {j : JoinedRow}
    (h : j.from_stop_title = none ∨ j.from_stop_title = some "") :
    (renderRow j).from_stop = "Any" := by
  rcases h with h | h <;> simp [renderRow, h]

/-- Claim C6: the export is the rendering of a sequence sorted by the ORDER
BY key `(from_city_name, to_city_name, from_stop_title, to_stop_title)`
(NULL origin-stop titles first, as SQLite sorts them), and every route with
a null origin-stop id renders its `from_stop` field as `"Any"`. -/
theorem c6_export_sorted_and_any (db : DB) :
    (∃ js : List JoinedRow, List.Sorted keyRel js ∧
      export_route_summary db = js.map renderRow ∧
      js.Perm (db.routes.filterMap (routeJoin db))) ∧
    (∀ r : RouteRow, ∀ j : JoinedRow, routeJoin db r = some j → r.from_stop_id = none →
      (renderRow j).from_stop = "Any") := by
  constructor
  · exact ⟨(db.routes.filterMap (routeJoin db)).insertionSort keyRel,
      List.sorted_insertionSort keyRel _, rfl, List.perm_insertionSort keyRel _⟩
  · intro r j hj hfs
    exact renderRow_any (Or.inl (routeJoin_null_from_stop hj hfs))

/-- Witness for C6 at a concrete input: in `sampleDB` the only surviving
route has a null origin stop and exports with `from_stop = "Any"`. -/
theorem c6_export_sorted_and_any_witness :
    (renderRow ⟨1, "Minsk", "Riga", none, "Central"⟩).from_stop = "Any" :=
  (c6_export_sorted_and_any sampleDB).2 ⟨1, some 5, some 9, none, some 100⟩
    ⟨1, "Minsk", "Riga", none, "Central"⟩ (by decide) rfl

/-- Claim C9: a route row survives into the export exactly when its origin
city, destination city and destination stop all resolve (inner joins) — a
dangling reference silently drops the row, as the length equation counts;
the origin stop is the only outer-joined reference, and a joined origin-stop
title that is NULL or the empty string renders as `"Any"`. -/
theorem c9_export_join_semantics (db : DB) :
    (∀ r : RouteRow, (routeJoin db r).isSome ↔
      ((lookupCity db r.from_city_id).isSome ∧ (lookupCity db r.to_city_id).isSome ∧
        (lookupStop db r.to_stop_id).isSome)) ∧
    ((export_route_summary db).length =
      (db.routes.filter (fun r => (routeJoin db r).isSome)).length) ∧
    (∀ r : RouteRow, ∀ j : JoinedRow, routeJoin db r = some j →
      (j.from_stop_title = none ∨ j.from_stop_title = some "") →
      (renderRow j).from_stop = "Any") := by
  refine ⟨?_, ?_, ?_⟩
  · intro r
    unfold routeJoin
    rcases lookupCity db r.from_city_id with _ | c1 <;>
      rcases lookupCity db r.to_city_id with _ | c2 <;>
      rcases lookupStop db r.to_stop_id with _ | s2 <;> simp
  · rw [export_route_summary, List.length_map,
      (List.perm_insertionSort keyRel _).length_eq, length_filterMap_eq_length_filter]
  · intro r j _ h
    exact renderRow_any h

/-- Witness for C9 at a concrete input: in `sampleDB` the route whose
`from_city_id` is the never-inserted city 7 is dropped, so the export keeps
one of the two route rows. -/
theorem c9_export_join_semantics_witness :
    (export_route_summary sampleDB).length =
      (sampleDB.routes.filter (fun r => (routeJoin sampleDB r).isSome)).length :=
  (c9_export_join_semantics sampleDB).2.1

/-! ### Helper lemmas: the per-outcome statement trace -/

lemma mkStopRow_city {cityId : Nat} {s : StopRec} {row : StopRow}
    (h : mkStopRow cityId s = some row) : row.city_id = cityId := by
  cases ht : s.title with
  | none => simp [mkStopRow, ht] at h
  | some t =>
    simp only [mkStopRow, ht, Option.map_some'] at h
    cases h
    rfl

lemma mkCityRow_id {c : CityRec} {row : CityRow}
    (h : mkCityRow c = some row) : row.id = c.id_city := by
  cases hn : c.city_name with
  | none => simp [mkCityRow, hn] at h
  | some nm =>
    simp only [mkCityRow, hn, Option.map_some'] at h
    cases h
    rfl

lemma stopEvents_mem {cityId : Nat} {stops : List StopRec} {ev : WriteEvent}
    (h : ev ∈ (stopEvents cityId stops).1) :
    ∃ row : StopRow, ev = WriteEvent.stop row ∧ row.city_id = cityId ∧
      ∃ s ∈ stops, mkStopRow cityId s = some row := by
  induction stops with
  | nil => simp [stopEvents] at h
  | cons s rest ih =>
    rcases hm : mkStopRow cityId s with _ | row
    · rw [stopEvents, hm] at h
      simp at h
    · rw [stopEvents, hm] at h
      rcases List.mem_cons.mp h with h1 | h2
      · exact ⟨row, h1, mkStopRow_city hm, s, List.mem_cons_self s rest, hm⟩
      · obtain ⟨row2, hev, hcid, s2, hs2, hmk⟩ := ih h2
        exact ⟨row2, hev, hcid, s2, List.mem_cons_of_mem s hs2, hmk⟩

lemma routeEvents_no_stop {fromId cityId : Nat} {stops : List StopRec} {row : StopRow} :
    WriteEvent.stop row ∉ routeEvents fromId cityId stops := by
  simp [routeEvents]

lemma cityRecEvents_stop_take {fromId : Nat} {c : CityRec} {n : Nat} {row : StopRow}
    (h : WriteEvent.stop row ∈ ((cityRecEvents fromId c).1.take n)) :
    (row.city_id = c.id_city ∧ ∃ s ∈ c.stops, mkStopRow c.id_city s = some row) ∧
    ∃ crow : CityRow, WriteEvent.city crow ∈ (cityRecEvents fromId c).1.take n ∧
      crow.id = c.id_city := by
  rcases hm : mkCityRow c with _ | crow
  · rw [cityRecEvents, hm] at h
    simp at h
  · cases n with
    | zero => simp at h
    | succ k =>
      by_cases hserr : (stopEvents c.id_city c.stops).2
      · simp only [cityRecEvents, hm, if_pos hserr] at h ⊢
        rw [List.take_succ_cons] at h ⊢
        rcases List.mem_cons.mp h with h1 | h2
        · cases h1
        · have h3 : WriteEvent.stop row ∈ (stopEvents c.id_city c.stops).1 :=
            List.take_subset k _ h2
          obtain ⟨row2, hev, hcid, s2, hs2, hmk⟩ := stopEvents_mem h3
          cases hev
          exact ⟨⟨hcid, s2, hs2, hmk⟩, crow,
            List.mem_cons_self _ _, mkCityRow_id hm⟩
      · simp only [cityRecEvents, hm, if_neg hserr] at h ⊢
        rw [List.take_succ_cons] at h ⊢
        rcases List.mem_cons.mp h with h1 | h2
        · cases h1
        · have h3 : WriteEvent.stop row ∈
              (stopEvents c.id_city c.stops).1 ++ routeEvents fromId c.id_city c.stops :=
            List.take_subset k _ h2
          rcases List.mem_append.mp h3 with h4 | h4
          · obtain ⟨row2, hev, hcid, s2, hs2, hmk⟩ := stopEvents_mem h4
            cases hev
            exact ⟨⟨hcid, s2, hs2, hmk⟩, crow,
              List.mem_cons_self _ _, mkCityRow_id hm⟩
          · exact absurd h4 routeEvents_no_stop

lemma outcomeEventsLoop_stop_take {fromId : Nat} {records : List CityRec} {n : Nat}
    {row : StopRow}
    (h : WriteEvent.stop row ∈ ((outcomeEventsLoop fromId records).1.take n)) :
    (∃ c ∈ records, row.city_id = c.id_city ∧
      ∃ s ∈ c.stops, mkStopRow c.id_city s = some row) ∧
    ∃ crow : CityRow, WriteEvent.city crow ∈ (outcomeEventsLoop fromId records).1.take n ∧
      crow.id = row.city_id := by
  induction records generalizing n with
  | nil => simp [outcomeEventsLoop] at h
  | cons c rest ih =>
    by_cases herr : (cityRecEvents fromId c).2
    · rw [outcomeEventsLoop, if_pos herr] at h ⊢
      obtain ⟨⟨hcid, hs⟩, crow, hmem, hcrow⟩ := cityRecEvents_stop_take h
      exact ⟨⟨c, List.mem_cons_self c rest, hcid, hs⟩, crow, hmem, by rw [hcrow, hcid]⟩
    · rw [outcomeEventsLoop, if_neg herr] at h ⊢
      rw [List.take_append_eq_append_take] at h ⊢
      rcases List.mem_append.mp h with hA | hB
      · obtain ⟨⟨hcid, hs⟩, crow, hmem, hcrow⟩ := cityRecEvents_stop_take hA
        exact ⟨⟨c, List.mem_cons_self c rest, hcid, hs⟩, crow,
          List.mem_append_left _ hmem, by rw [hcrow, hcid]⟩
      · obtain ⟨⟨c2, hc2, hcid, hs⟩, crow, hmem, hcrow⟩ := ih hB
        exact ⟨⟨c2, List.mem_cons_of_mem c hc2, hcid, hs⟩, crow,
          List.mem_append_right _ hmem, hcrow⟩

/-- Claim C10: any Stop row written at any point of an outcome's statement
trace carries as `city_id` the `id_city` of the destination-city record it
is nested under, and by that point of the trace a City row with exactly that
id has already been written within the same outcome. -/
theorem c10_stop_rows_scoped (cd : CityData) (n : Nat) (row : StopRow)
    (h : WriteEvent.stop row ∈ ((outcomeEvents cd).1.take n)) :
    (∃ c ∈ cd.data, row.city_id = c.id_city ∧
      ∃ s ∈ c.stops, mkStopRow c.id_city s = some row) ∧
    ∃ crow : CityRow, WriteEvent.city crow ∈ (outcomeEvents cd).1.take n ∧
      crow.id = row.city_id :=
  outcomeEventsLoop_stop_take h

/-- Witness for C10 at a concrete input: the spec scenario's stop write (the
second statement of the outcome's trace) is scoped to destination city 9,
whose City write precedes it. -/
theorem c10_stop_rows_scoped_witness :
    (WriteEvent.stop stopRow100 ∈ ((outcomeEvents rigaOutcome).1.take 2)) ∧
    ((∃ c ∈ rigaOutcome.data, stopRow100.city_id = c.id_city ∧
        ∃ s ∈ c.stops, mkStopRow c.id_city s = some stopRow100) ∧
      ∃ crow : CityRow, WriteEvent.city crow ∈ (outcomeEvents rigaOutcome).1.take 2 ∧
        crow.id = stopRow100.city_id) :=
  ⟨by decide, c10_stop_rows_scoped rigaOutcome 2 stopRow100 (by decide)⟩

/-! ### Helper lemmas: the run trace -/

lemma map_fst_tag (n : Nat) (evs : List WriteEvent) :
    (evs.map (fun e => (n, e))).map Prod.fst = evs.map (fun _ => n) := by
  rw [List.map_map]
  rfl

lemma mem_map_const {n b : Nat} {evs : List WriteEvent}
    (h : b ∈ evs.map (fun _ => n)) : b = n := by
  obtain ⟨x, _, hx⟩ := List.mem_map.mp h
  omega

lemma pairwise_le_const (n : Nat) (evs : List WriteEvent) :
    List.Pairwise (· ≤ ·) (evs.map (fun _ => n)) := by
  induction evs with
  | nil => simp
  | cons e es ih =>
    rw [List.map_cons, List.pairwise_cons]
    refine ⟨?_, ih⟩
    intro b hb
    rw [mem_map_const hb]

lemma runTraceFrom_tag_ge (items : List (Nat × Option CityData)) :
    ∀ (n t : Nat), t ∈ (runTraceFrom n items).map Prod.fst → n ≤ t := by
  induction items with
  | nil =>
    intro n t h
    simp [runTraceFrom] at h
  | cons item rest ih =>
    intro n t h
    rcases hit : item.2 with _ | cd
    · rw [runTraceFrom, hit] at h
      simp only [List.nil_append] at h
      exact Nat.le_of_succ_le (ih (n + 1) t h)
    · rw [runTraceFrom, hit] at h
      rw [List.map_append, map_fst_tag] at h
      rcases List.mem_append.mp h with h1 | h2
      · rw [mem_map_const h1]
      · exact Nat.le_of_succ_le (ih (n + 1) t h2)

lemma runTraceFrom_tags_sorted (items : List (Nat × Option CityData)) :
    ∀ n : Nat, List.Sorted (· ≤ ·) ((runTraceFrom n items).map Prod.fst) := by
  induction items with
  | nil =>
    intro n
    simp [runTraceFrom]
  | cons item rest ih =>
    intro n
    rcases hit : item.2 with _ | cd
    · rw [runTraceFrom, hit]
      simpa using ih (n + 1)
    · rw [runTraceFrom, hit]
      rw [List.map_append, map_fst_tag, List.Sorted, List.pairwise_append]
      refine ⟨pairwise_le_const n _, ih (n + 1), ?_⟩
      intro a ha b hb
      rw [mem_map_const ha]
      exact Nat.le_of_succ_le (runTraceFrom_tag_ge rest (n + 1) b hb)

/-- Claim C7: in the run's write trace, statements from two different
outcomes never interleave — any statement lying between two statements of
the same outcome belongs to that outcome.  (All statements are issued
sequentially by the coordinator thread; the worker pool only fetches.) -/
theorem c7_writes_not_interleaved (items : List (Nat × Option CityData)) (x y z : Nat)
    (h : [x, y, z].Sublist ((runTrace items).map Prod.fst)) (hxz : x = z) : y = x := by
  have hs : List.Pairwise (· ≤ ·) ((runTrace items).map Prod.fst) :=
    runTraceFrom_tags_sorted items 0
  have hp : List.Pairwise (· ≤ ·) [x, y, z] := hs.sublist h
  have hxy : x ≤ y := List.rel_of_pairwise_cons hp (by simp)
  have hyz : y ≤ z := List.rel_of_pairwise_cons hp.of_cons (by simp)
  omega

/-- Witness for C7 at a concrete input: the trace of a one-outcome run has
three statements, all tagged with arrival position 0. -/
theorem c7_writes_not_interleaved_witness :
    ([0, 0, 0].Sublist ((runTrace [(5, some rigaOutcome)]).map Prod.fst)) ∧ (0 : Nat) = 0 := by
  have htags : (runTrace [(5, some rigaOutcome)]).map Prod.fst = [0, 0, 0] := rfl
  have hsub : [0, 0, 0].Sublist ((runTrace [(5, some rigaOutcome)]).map Prod.fst) := by
    rw [htags]
  exact ⟨hsub, c7_writes_not_interleaved [(5, some rigaOutcome)] 0 0 0 hsub rfl⟩

/-- Grounding of the trace model: the store state `populate_database`
reaches equals the replay, in order, of the run's write trace. -/
lemma populate_replay_aux (items : List (Nat × Option CityData)) :
    ∀ (db : DB) (l : List (Nat × Bool)) (n : Nat),
      (items.foldl populate_step (db, l)).1 =
        ((runTraceFrom n items).map Prod.snd).foldl applyEvent db := by
  induction items with
  | nil =>
    intro db l n
    simp [runTraceFrom]
  | cons item rest ih =>
    intro db l n
    rcases hit : item.2 with _ | cd
    · rw [List.foldl_cons, runTraceFrom, hit]
      simp only [populate_step, hit, List.nil_append]
      exact ih db l (n + 1)
    · rw [List.foldl_cons, runTraceFrom, hit]
      have hsnd : ((outcomeEvents cd).1.map (fun e => (n, e))).map Prod.snd =
          (outcomeEvents cd).1 := by
        rw [List.map_map]
        simp
      rw [List.map_append, hsnd, List.foldl_append]
      rcases herr : (process_city_data db cd).2 with _ | e
      · simp only [populate_step, hit, herr]
        exact ih _ _ (n + 1)
      · simp only [populate_step, hit, herr]
        exact ih _ _ (n + 1)

/-- The store state after a run is the in-order replay of its write trace. -/
lemma populate_replay (items : List (Nat × Option CityData)) (db : DB) :
    (populate_database db items).1 = ((runTrace items).map Prod.snd).foldl applyEvent db :=
  populate_replay_aux items db [] 0

/-! ### Helper lemmas: the processing loop's log and continuation -/

lemma populate_foldl_log (items : List (Nat × Option CityData)) :
    ∀ (db : DB) (l : List (Nat × Bool)),
      items.foldl populate_step (db, l) =
        ((items.foldl populate_step (db, [])).1,
          l ++ (items.foldl populate_step (db, [])).2) := by
  induction items with
  | nil =>
    intro db l
    simp
  | cons item rest ih =>
    intro db l
    rw [List.foldl_cons, List.foldl_cons]
    rcases hit : item.2 with _ | cd
    · simp only [populate_step, hit]
      exact ih db l
    · rcases herr : (process_city_data db cd).2 with _ | e
      · simp only [populate_step, hit, herr, List.nil_append]
        rw [ih (process_city_data db cd).1 (l ++ [(item.1, true)]),
          ih (process_city_data db cd).1 [(item.1, true)]]
        simp
      · simp only [populate_step, hit, herr, List.nil_append]
        rw [ih (process_city_data db cd).1 (l ++ [(item.1, false)]),
          ih (process_city_data db cd).1 [(item.1, false)]]
        simp

/-- Claim C4 (amended): when an outcome's write raises mid-way, the run logs
an error entry for that outcome and continues — every later outcome is
processed normally and the run is not aborted — but the store the rest of
the run builds on is the failing outcome's partial state (its statements up
to the raising one), not a rolled-back one. -/
theorem c4_amended_partial_persistence (db : DB) (pre post : List (Nat × Option CityData))
    (cid : Nat) (cd : CityData)
    (herr : (process_city_data (populate_database db pre).1 cd).2.isSome = true) :
    populate_database db (pre ++ (cid, some cd) :: post) =
      ((populate_database (process_city_data (populate_database db pre).1 cd).1 post).1,
        (populate_database db pre).2 ++ (cid, false) ::
          (populate_database (process_city_data (populate_database db pre).1 cd).1 post).2) := by
  obtain ⟨e, he⟩ := Option.isSome_iff_exists.mp herr
  unfold populate_database at he ⊢
  rw [List.foldl_append, List.foldl_cons]
  simp only [populate_step, he]
  rw [populate_foldl_log post]
  simp

/-- Witness for C4 (amended) at a concrete input: `badOutcome` raises on its
second record; the run logs `(1, false)`, keeps its partial writes, and
still processes the following outcome. -/
theorem c4_amended_partial_persistence_witness :
    ((process_city_data (populate_database emptyDB []).1 badOutcome).2.isSome = true) ∧
    populate_database emptyDB ([] ++ (1, some badOutcome) :: [(2, some rigaOutcome)]) =
      ((populate_database
          (process_city_data (populate_database emptyDB []).1 badOutcome).1
          [(2, some rigaOutcome)]).1,
        (populate_database emptyDB []).2 ++ (1, false) ::
          (populate_database
            (process_city_data (populate_database emptyDB []).1 badOutcome).1
            [(2, some rigaOutcome)]).2) :=
  ⟨by decide, c4_amended_partial_persistence emptyDB [] [(2, some rigaOutcome)] 1 badOutcome
    (by decide)⟩

end Smilebus
